import Mathlib

/-!
Verification development for the RateCaster SDK (TypeScript).

This file shallowly embeds the parts of the SDK that the claims of the
specification are about:

* the identifier canonicalizer (`ethers.isHexString(id) && id.length === 66
  ? id : ethers.keccak256(ethers.toUtf8Bytes(id))`, inlined at every
  contract-call site in `src/src/index.ts` and in the legacy variant
  `src/unnamed/part_003`),
* a faithful executable Keccak-256 (the hash `ethers.keccak256` applies),
* the static category table (`CATEGORY_NAMES` in `src/src/types.ts` /
  `src/unnamed/part_001`) and the category helpers of `src/src/index.ts`,
* the chain-configuration table `CHAIN_CONFIGS` (`src/src/constants.ts`) and
  the initialization logic,
* the public operations `submitReview`, `registerDapp`, `updateDapp`,
  `getProjectStats`, `getAllReviews`, `getAllDapps`, `getUserReviews`,
  modelled as pure functions over an explicit chain/index oracle, returning
  `Except` for thrown errors and recording the contract interactions they
  perform as an explicit call list.

JavaScript numbers are modelled as `ℚ` (star ratings, averages) or `ℕ`
(fees in wei, category ids, chain ids); floating-point rounding is not
modelled.  JS string `.length` (UTF-16 units) coincides with `String.length`
on the ASCII strings all length checks are applied to after their
accompanying hex/format checks.
-/

/-! ## Hex strings (`ethers.isHexString`, `ethers.hexlify` encoding) -/

/-- A base-16 digit, in either case: the character class `[0-9A-Fa-f]`. -/
def isHexDigit (c : Char) : Bool :=
  ('0' ≤ c && c ≤ '9') || ('a' ≤ c && c ≤ 'f') || ('A' ≤ c && c ≤ 'F')

/-- `ethers.isHexString(s)` (no length argument): `s` matches
`/^0x[0-9A-Fa-f]*$/`.  Modelled on the character list of the string. -/
def isHexString (s : String) : Bool :=
  match s.data with
  | c0 :: c1 :: rest => c0 == '0' && c1 == 'x' && rest.all isHexDigit
  | _ => false

/-- The canonical-form test inlined at every call site:
`ethers.isHexString(dappId) && dappId.length === 66`. -/
def isCanonicalId (s : String) : Bool :=
  isHexString s && s.length == 66

/-- Lower-case hex digit for a nibble, as produced by `ethers.hexlify`. -/
def hexDigitChar (n : Nat) : Char :=
  if n < 10 then Char.ofNat (48 + n) else Char.ofNat (87 + n)

/-- Two lower-case hex digits of one byte. -/
def byteToHexPair (b : Nat) : List Char :=
  [hexDigitChar (b / 16), hexDigitChar (b % 16)]

/-- `0x`-prefixed lower-case hex encoding of a byte list (the encoding ethers
uses for a `BytesLike` result). -/
def bytesToHex (bs : List Nat) : String :=
  String.mk ('0' :: 'x' :: bs.flatMap byteToHexPair)

/-! ## UTF-8 (`ethers.toUtf8Bytes`) -/

/-- Standard UTF-8 encoding of one scalar value. -/
def utf8EncodeCharNat (c : Char) : List Nat :=
  let n := c.toNat
  if n < 0x80 then [n]
  else if n < 0x800 then
    [0xC0 ||| (n >>> 6), 0x80 ||| (n &&& 0x3F)]
  else if n < 0x10000 then
    [0xE0 ||| (n >>> 12), 0x80 ||| ((n >>> 6) &&& 0x3F), 0x80 ||| (n &&& 0x3F)]
  else
    [0xF0 ||| (n >>> 18), 0x80 ||| ((n >>> 12) &&& 0x3F),
     0x80 ||| ((n >>> 6) &&& 0x3F), 0x80 ||| (n &&& 0x3F)]

/-- `ethers.toUtf8Bytes`: the UTF-8 bytes of a string. -/
def utf8Bytes (s : String) : List Nat :=
  s.data.flatMap utf8EncodeCharNat

/-! ## Keccak-256 (`ethers.keccak256`)

The original Keccak (pre-SHA-3 padding `0x01`), rate 1088 bits / 136 bytes,
256-bit output.  Lanes are 64-bit words modelled as `Nat` reduced mod
`2 ^ 64`; the 5×5 state is a flat 25-element list indexed by `x + 5 * y`. -/

/-- Rotate a 64-bit lane left by `n` (`0 ≤ n < 64`). -/
def rotl64 (x n : Nat) : Nat :=
  ((x <<< n) ||| (x >>> (64 - n))) % (2 ^ 64)

/-- ρ rotation offset of lane `x + 5 * y`, row by row (`y = 0` first). -/
def rhoOffsets : List Nat :=
  List.flatten
    [[0, 1, 62, 28, 27],
     [36, 44, 6, 55, 20],
     [3, 10, 43, 25, 39],
     [41, 45, 15, 21, 8],
     [18, 2, 61, 56, 14]]

/-- Round constants for ι, all 24 rounds (decimal; e.g. the second one is
`0x8082` and the last one is `0x8000000080008008`). -/
def keccakRC : List Nat :=
  [1,
   32898,
   9223372036854808714,
   9223372039002292224,
   32907,
   2147483649,
   9223372039002292353,
   9223372036854808585,
   138,
   136,
   2147516425,
   2147483658,
   2147516555,
   9223372036854775947,
   9223372036854808713,
   9223372036854808579,
   9223372036854808578,
   9223372036854775936,
   32778,
   9223372039002259466,
   9223372039002292353,
   9223372036854808704,
   2147483649,
   9223372039002292232]

/-- θ step. -/
def keccakTheta (A : List Nat) : List Nat :=
  let C := (List.range 5).map fun x =>
    (A.getD x 0) ^^^ (A.getD (x + 5) 0) ^^^ (A.getD (x + 10) 0) ^^^
    (A.getD (x + 15) 0) ^^^ (A.getD (x + 20) 0)
  let D := (List.range 5).map fun x =>
    (C.getD ((x + 4) % 5) 0) ^^^ rotl64 (C.getD ((x + 1) % 5) 0) 1
  (List.range 25).map fun i => (A.getD i 0) ^^^ (D.getD (i % 5) 0)

/-- ρ and π steps: `B[y, 2x+3y] = rotl(A[x, y], r[x, y])`. -/
def keccakRhoPi (A : List Nat) : List Nat :=
  (List.range 25).foldl
    (fun B i =>
      let x := i % 5
      let y := i / 5
      let j := y + 5 * ((2 * x + 3 * y) % 5)
      B.set j (rotl64 (A.getD i 0) (rhoOffsets.getD i 0)))
    (List.replicate 25 0)

/-- χ step (lane complement as xor with `2 ^ 64 - 1`). -/
def keccakChi (B : List Nat) : List Nat :=
  (List.range 25).map fun i =>
    let x := i % 5
    let y := i / 5
    (B.getD i 0) ^^^
      (((B.getD ((x + 1) % 5 + 5 * y) 0) ^^^ (2 ^ 64 - 1)) &&&
        (B.getD ((x + 2) % 5 + 5 * y) 0))

/-- Keccak-f[1600]: 24 rounds of θ, ρπ, χ, ι. -/
def keccakF (A : List Nat) : List Nat :=
  keccakRC.foldl
    (fun A rc =>
      let B := keccakChi (keccakRhoPi (keccakTheta A))
      B.set 0 ((B.getD 0 0) ^^^ rc))
    A

/-- Multi-rate padding `0x01 .. 0x80` of original Keccak (domain byte
`0x01`; a single pad byte collapses to `0x81`). -/
def keccakPad (msg : List Nat) : List Nat :=
  let padLen := 136 - msg.length % 136
  if padLen == 1 then msg ++ [0x81]
  else msg ++ (0x01 :: List.replicate (padLen - 2) 0 ++ [0x80])

/-- Load lane `i` (8 bytes, little endian) of a 136-byte block. -/
def loadLane (block : List Nat) (i : Nat) : Nat :=
  (List.range 8).foldl (fun acc k => acc ||| ((block.getD (8 * i + k) 0) <<< (8 * k))) 0

/-- Xor one 136-byte block into the first 17 lanes of the state. -/
def xorBlock (A block : List Nat) : List Nat :=
  (List.range 25).map fun i =>
    (A.getD i 0) ^^^ (if i < 17 then loadLane block i else 0)

/-- Absorb exactly `n` rate-sized blocks. -/
def absorbBlocks : Nat → List Nat → List Nat → List Nat
  | 0, A, _ => A
  | n + 1, A, bytes => absorbBlocks n (keccakF (xorBlock A (bytes.take 136))) (bytes.drop 136)

/-- Keccak-256 digest (32 bytes) of a byte list. -/
def keccak256Bytes (msg : List Nat) : List Nat :=
  let padded := keccakPad msg
  let A := absorbBlocks (padded.length / 136) (List.replicate 25 0) padded
  (List.range 32).map fun i => ((A.getD (i / 8) 0) >>> (8 * (i % 8))) % 256

/-- `ethers.keccak256(ethers.toUtf8Bytes(s))`: `0x`-hex Keccak-256 digest of
the UTF-8 bytes of `s`. -/
def keccak256Hex (s : String) : String :=
  bytesToHex (keccak256Bytes (utf8Bytes s))



/-! ## The identifier canonicalizer

Inlined at every contract-call site of `src/src/index.ts`:
`submitReview` (210-212), `hasUserRatedProject` (417-419),
`getProjectRatingCount` (484-486), `updateDapp` (729-731),
`deleteDapp` (783-785), `getDapp` (897-899), `isDappRegistered` (959-961),
and in `src/unnamed/part_003`: `submitReview` (107-109),
`hasUserRatedProject` (198-200), `getProjectRatingCount` (212-214),
`deleteDapp` (329-331), `isDappRegistered` (407-409). -/

/-- `ethers.isHexString(dappId) && dappId.length === 66 ? dappId
: ethers.keccak256(ethers.toUtf8Bytes(dappId))`. -/
def toBytes32 (dappId : String) : String :=
  if isCanonicalId dappId then dappId else keccak256Hex dappId

/-- `src/unnamed/part_003` lines 309-311, inside `updateDapp`: the test is
on `dappId` but the hashed value is `url`:
`ethers.isHexString(dappId) && dappId.length === 66 ? dappId
: ethers.keccak256(ethers.toUtf8Bytes(url))`. -/
def updateDappIdArgP3 (dappId url : String) : String :=
  if isCanonicalId dappId then dappId else keccak256Hex url

/-! ## Category table (`CATEGORY_NAMES`, `src/src/types.ts` /
`src/unnamed/part_001`)

`Object.entries` of a numeric-keyed JS object yields ascending key order,
which is also the source order of the table. -/

def CATEGORY_NAMES : List (Nat × String) :=
  [(100, "B2B"), (101, "Decentralised Storage"), (102, "Decentralised Compute"),
   (103, "Automation/Bots"), (104, "On Ramp/Off Ramp"), (105, "Dev Tools"),
   (106, "Explorer"), (107, "Wallet"), (108, "Infrastructure"), (199, "Others (B2B)"),
   (200, "Tools"), (201, "CEX"),
   (300, "DApps"), (301, "DAO"),
   (400, "DeFi"), (401, "Betting"), (402, "Lending"), (403, "Prediction Market"),
   (404, "Stablecoin"), (405, "Yield Aggregator"), (406, "Synthetics"),
   (407, "Insurance"), (408, "Reserve Currency"), (409, "Oracle"), (410, "Lottery"),
   (411, "Staking"), (412, "DEX"), (413, "Bridge"), (414, "Yield"),
   (415, "Launchpad"), (416, "Tooling"), (417, "Derivatives"), (418, "Payments"),
   (419, "Indexes"), (420, "Privacy"),
   (500, "Social"), (501, "Messaging"), (502, "Notification"),
   (503, "Social Network"), (504, "Social Token"),
   (600, "NFT"), (601, "Game"), (602, "Creator/Brand (Art/Music/Fashion)"),
   (603, "Middleware Offerings"), (604, "PFP+Game"),
   (605, "PFP Project/Collectibles"), (606, "Marketplace"),
   (700, "Gaming"), (701, "Trading Card Game"), (702, "Survival"),
   (703, "Strategy"), (704, "Simulation"), (705, "Shooter"), (706, "RPG"),
   (707, "Rhythm Action"), (708, "Platformer"), (709, "MMO"), (710, "Metaverse"),
   (711, "Fighting"), (712, "CCG"), (713, "Battle Royale"), (714, "Adventure"),
   (715, "Arcade"), (716, "Cards/Board/Trading"), (717, "Gambling"),
   (718, "Crypto Farming"), (719, "Puzzle/Party Games"), (720, "Racing"),
   (721, "Sandbox/Open World"), (722, "Sports"), (723, "Tower Defence"),
   (799, "Others (Gaming)")]

/-- `CATEGORY_NAMES[id]` as an optional lookup (`undefined` = `none`). -/
def lookupCategory (id : Nat) : Option String :=
  (CATEGORY_NAMES.find? (fun p => p.1 == id)).map (·.2)

/-- The `group` computed inside `getAllCategories`
(`src/src/index.ts` 1060-1061):
`CATEGORY_NAMES[Math.floor(id / 100) * 100] || "Other"`. -/
def categoryGroup (id : Nat) : String :=
  (lookupCategory (id / 100 * 100)).getD "Other"

/-- `getAllCategories` (`src/src/index.ts` 1057-1073) as the list of
`(id, name, group)` triples it returns.  The trailing
`.sort(...localeCompare...)` only permutes the list (ids are unique keys of
the table) and locale-sensitive ordering is not modelled; no use below
(`.some`, `.find`) depends on the order. -/
def getAllCategoriesL : List (Nat × String × String) :=
  CATEGORY_NAMES.map fun p => (p.1, p.2, categoryGroup p.1)

/-- `getCategoryNameById` (`src/src/index.ts` 1089-1096). -/
def getCategoryNameById (categoryId : Nat) : String :=
  match getAllCategoriesL.find? (fun t => t.1 == categoryId) with
  | some (_, nm, grp) => nm ++ " (" ++ grp ++ ")"
  | none =>
    match lookupCategory categoryId with
    | some nm => nm
    | none => "Unknown (" ++ toString categoryId ++ ")"

/-- `this.getAllCategories().some(cat => cat.id === categoryId)`, the
category validation used by `registerDapp` (650) and `updateDapp` (720). -/
def categoryIdKnown (categoryId : Nat) : Bool :=
  getAllCategoriesL.any fun t => t.1 == categoryId

/-! ## Chain configuration (`CHAIN_CONFIGS`, `src/src/constants.ts` 15-30)
and initialization (`src/src/index.ts` 77-124) -/

structure ChainInfo where
  chainId : Nat
  name : String
  graphqlUrl : String
  contractAddress : String
  explorer : String
deriving DecidableEq

/-- The numeric-keyed `CHAIN_CONFIGS` table of `src/src/constants.ts`. -/
def CHAIN_CONFIGS : Nat → Option ChainInfo := fun chainId =>
  if chainId = 137 then
    some { chainId := 137, name := "Polygon",
           graphqlUrl := "https://subgraph.satsuma-prod.com/8913ac6ee1bc/alexanders-team--782474/pol_mainnet/api",
           contractAddress := "0xC876B28B3CD093402Ed73D85E3d21752a7D30A76",
           explorer := "https://polygonscan.com" }
  else if chainId = 80002 then
    some { chainId := 80002, name := "Polygon Amoy",
           graphqlUrl := "https://subgraph.satsuma-prod.com/8913ac6ee1bc/alexanders-team--782474/pol_amoy/version/0.0.3/api",
           contractAddress := "0x9500e6B9CdC0a934abD7Ed496Bf10AC0B1363CDA",
           explorer := "https://amoy.polygonscan.com/" }
  else none

/-- `initialize` (`src/src/index.ts` 77-120), given the chain id reported by
the provider: `this.chainConfig = CHAIN_CONFIGS[chainId]; if
(!this.chainConfig) throw new Error(...)`.  Success carries the resolved
config; the thrown error rejects `this.initialized`, which every
`ensureInitialized` call re-raises. -/
def initializeRun (chainId : Nat) : Except String ChainInfo :=
  match CHAIN_CONFIGS chainId with
  | some cfg => .ok cfg
  | none => .error ("Configuration not found for chain: " ++ toString chainId)

/-- `getCurrentChain` (`src/src/index.ts` 506-508): returns
`this.chainConfig` synchronously, without `ensureInitialized`.  After a
failed initialization the field holds `CHAIN_CONFIGS[chainId]`, i.e.
`undefined` (`none`); no error is raised. -/
def getCurrentChainRun (chainId : Nat) : Option ChainInfo :=
  CHAIN_CONFIGS chainId

/-! ## Reviews and project statistics -/

/-- A review row as returned by the index
(`DappReview`, `src/src/types.ts`).  `starRating` is a JS number,
modelled as `ℚ`. -/
structure DappReview where
  id : String
  attestationId : String
  dappId : String
  starRating : ℚ
  reviewText : String
  rater : String
deriving DecidableEq

/-- The record returned by `getProjectStats`
(`src/src/index.ts` 370-391). -/
structure ProjectStats where
  totalReviews : Nat
  averageRating : ℚ
  dist1 : Nat
  dist2 : Nat
  dist3 : Nat
  dist4 : Nat
  dist5 : Nat
deriving DecidableEq

/-- The statistics computation of `getProjectStats`
(`src/src/index.ts` 368-391) on the fetched review list.  The
`averageRating || 0` coercion is the `if _ == 0` wrapper. -/
def getProjectStats (reviews : List DappReview) : ProjectStats :=
  let totalReviews := reviews.length
  if totalReviews = 0 then
    { totalReviews := 0, averageRating := 0,
      dist1 := 0, dist2 := 0, dist3 := 0, dist4 := 0, dist5 := 0 }
  else
    let averageRating :=
      reviews.foldl (fun acc review => acc + review.starRating) 0 / (totalReviews : ℚ)
    { totalReviews := totalReviews
      averageRating := if averageRating == 0 then 0 else averageRating
      dist1 := (reviews.filter fun r => r.starRating == 1).length
      dist2 := (reviews.filter fun r => r.starRating == 2).length
      dist3 := (reviews.filter fun r => r.starRating == 3).length
      dist4 := (reviews.filter fun r => r.starRating == 4).length
      dist5 := (reviews.filter fun r => r.starRating == 5).length }

/-! ## Contract-call traces for the write operations

A write operation is modelled as a function from its arguments and the
current chain state to either the thrown error or the ordered list of
interactions it performs against signer and contract.  `ChainState` holds
the values the view calls would return at this moment (both fees are
administratively adjustable on chain).  `Overrides` is modelled by its only
field that interacts with the SDK logic, the optional `value` (the spread
`{ value: fee, ...overrides }` lets a caller-supplied `value` win). -/

structure ChainState where
  dappRatingFee : Nat
  dappRegistrationFee : Nat
deriving DecidableEq

inductive ChainCall where
  | getAddress : ChainCall
  | viewDappRatingFee : ChainCall
  | viewDappRegistrationFee : ChainCall
  | txAddDappRating (dappId : String) (starRating : ℚ) (reviewText : String)
      (value : Nat) : ChainCall
  | txRegisterDapp (name description url imageURL : String) (categoryId : Nat)
      (value : Nat) : ChainCall
  | txUpdateDapp (dappId name description url imageURL : String)
      (categoryId : Nat) : ChainCall
deriving DecidableEq

/-- `submitReview` (`src/src/index.ts` 188-243): `if (!dappId) throw`;
`if (starRating < 1 || starRating > 5) throw`; then `signer.getAddress()`,
the `dappRatingFee()` view call, and `addDappRating(dappIdBytes32,
starRating, reviewText, { value: ratingFee, ...overrides })`. -/
def submitReviewRun (chain : ChainState) (dappId : String) (starRating : ℚ)
    (reviewText : String) (overrideValue : Option Nat) :
    Except String (List ChainCall) :=
  if dappId = "" then .error "dappId must be non-empty"
  else if starRating < 1 ∨ starRating > 5 then
    .error "Star rating must be between 1 and 5"
  else
    let dappIdBytes32 := toBytes32 dappId
    let ratingFee := chain.dappRatingFee
    .ok [ChainCall.getAddress, ChainCall.viewDappRatingFee,
         ChainCall.txAddDappRating dappIdBytes32 starRating reviewText
           (overrideValue.getD ratingFee)]

/-- `/^https?:\/\//.test(s)`: the string starts with `http://` or
`https://`. -/
def testHttpUrl (s : String) : Bool :=
  List.isPrefixOf "http://".data s.data || List.isPrefixOf "https://".data s.data

/-- `registerDapp` (`src/src/index.ts` 635-687): the five validation
guards (646-650), then `signer.getAddress()`, the `dappRegistrationFee()`
view call, and `registerDapp(..., { value: registrationFee, ...overrides })`. -/
def registerDappRun (chain : ChainState) (name description url imageURL : String)
    (categoryId : Nat) (overrideValue : Option Nat) :
    Except String (List ChainCall) :=
  if name = "" ∨ name.length > 100 then
    .error "Name must be non-empty and at most 100 characters"
  else if description.length > 1000 then
    .error "Description must be at most 1000 characters"
  else if url = "" ∨ testHttpUrl url = false then
    .error "URL must be a valid HTTP/HTTPS URL"
  else if imageURL = "" ∨ testHttpUrl imageURL = false then
    .error "Image URL must be a valid HTTP/HTTPS URL"
  else if categoryIdKnown categoryId = false then
    .error ("Invalid category ID: " ++ toString categoryId)
  else
    let registrationFee := chain.dappRegistrationFee
    .ok [ChainCall.getAddress, ChainCall.viewDappRegistrationFee,
         ChainCall.txRegisterDapp name description url imageURL categoryId
           (overrideValue.getD registrationFee)]

/-- `updateDapp` (`src/src/index.ts` 703-756): the six validation guards
(715-720; the description guard additionally requires non-emptiness),
then `signer.getAddress()` and `updateDapp(dappIdBytes32, ..., overrides)`
(no fee view call, no value attached). -/
def updateDappRun (dappId name description url imageURL : String) (categoryId : Nat) :
    Except String (List ChainCall) :=
  if dappId = "" then .error "dappId must be non-empty"
  else if name = "" ∨ name.length > 100 then
    .error "Name must be non-empty and at most 100 characters"
  else if description = "" ∨ description.length > 1000 then
    .error "Description must be non-empty and at most 1000 characters"
  else if url = "" ∨ testHttpUrl url = false then
    .error "URL must be a valid HTTP/HTTPS URL"
  else if imageURL = "" ∨ testHttpUrl imageURL = false then
    .error "Image URL must be a valid HTTP/HTTPS URL"
  else if categoryIdKnown categoryId = false then
    .error ("Invalid category ID: " ++ toString categoryId)
  else
    .ok [ChainCall.getAddress,
         ChainCall.txUpdateDapp (toBytes32 dappId) name description url imageURL
           categoryId]

/-- `true` exactly when no error was thrown. -/
def exceptIsOk {α : Type} : Except String α → Bool
  | .ok _ => true
  | .error _ => false

/-! ## The index endpoint (`fetchGraphQL`) and the bulk read paths -/

/-- One round trip against the index endpoint, from the point of view of
the caller: transport failure (`fetch` rejected), non-success HTTP status,
an `errors` payload in an otherwise successful response, or a successful
response carrying the requested data. -/
inductive IndexOutcome (T : Type) where
  | transportFail (msg : String) : IndexOutcome T
  | httpError (status : Nat) : IndexOutcome T
  | graphqlErrors (msgs : List String) : IndexOutcome T
  | success (data : T) : IndexOutcome T
deriving DecidableEq

/-- `o` is one of the three failure shapes. -/
def IndexOutcome.isFailure {T : Type} : IndexOutcome T → Bool
  | .success _ => false
  | _ => true

/-- Stand-in for `JSON.stringify(responseData.errors)`. -/
def errorsJson (msgs : List String) : String :=
  String.intercalate ", " msgs

/-- `fetchGraphQL` (`src/src/index.ts` 134-175): a non-ok status and an
`errors` payload are thrown inside the `try`, and every failure is
re-wrapped by the catch into `Failed to fetch GraphQL data: ...`. -/
def fetchGraphQLRun {T : Type} (o : IndexOutcome T) : Except String T :=
  match o with
  | .transportFail msg =>
    .error ("Failed to fetch GraphQL data: " ++ msg)
  | .httpError status =>
    .error ("Failed to fetch GraphQL data: HTTP error! status: " ++ toString status)
  | .graphqlErrors msgs =>
    .error ("Failed to fetch GraphQL data: GraphQL errors: " ++ errorsJson msgs)
  | .success data => .ok data

/-- `getAllReviews` (`src/src/index.ts` 982-1011): on success returns
`response.data.dappRatingSubmitteds || []`; its catch RETHROWS
(`throw new Error(...)`), it does not degrade to `[]`. -/
def getAllReviewsMain (o : IndexOutcome (Option (List DappReview))) :
    Except String (List DappReview) :=
  match fetchGraphQLRun o with
  | .ok data => .ok (data.getD [])
  | .error e => .error ("Failed to fetch reviews: " ++ e)

/-- `getProjectReviews` (`src/src/index.ts` 287-317), with the index
outcome for the `dappRatingSubmitteds(where: ...)` query as input. -/
def getProjectReviewsRun (projectId : String)
    (o : IndexOutcome (Option (List DappReview))) :
    Except String (List DappReview) :=
  if projectId = "" then .error "projectId must be non-empty"
  else
    match fetchGraphQLRun o with
    | .ok data => .ok (data.getD [])
    | .error e => .error ("Failed to fetch project reviews: " ++ e)

/-- `getProjectStats` as a public operation (`src/src/index.ts` 363-395):
fetch the project reviews, then run the statistics computation. -/
def getProjectStatsRun (projectId : String)
    (o : IndexOutcome (Option (List DappReview))) : Except String ProjectStats :=
  if projectId = "" then .error "projectId must be non-empty"
  else (getProjectReviewsRun projectId o).map getProjectStats

/-- A registration record as returned by the on-chain `getAllDapps()`
view call (`DappRegistered`, `src/src/types.ts`). -/
structure DappRegistered where
  dappId : String
  name : String
  description : String
  url : String
  imageUrl : String
  categoryId : Nat
  owner : String
deriving DecidableEq

/-- The element shape `getAllDapps` returns: the transformed record, with
the rating fields present only when `includeRatings` was requested. -/
structure TransformedDapp where
  dappId : String
  name : String
  description : String
  url : String
  imageUrl : String
  categoryId : Nat
  category : String
  owner : String
  averageRating : Option ℚ
  totalReviews : Option Nat
deriving DecidableEq

/-- A row of the `dappRatingSubmitteds { dappId starRating }` query used by
`getAllDapps`. -/
structure RatingRow where
  dappId : String
  starRating : ℚ
deriving DecidableEq

/-- `getAllDapps` (`src/src/index.ts` 809-876), with the contract response
and the index outcome as inputs.  Any failure inside the `try` — here the
index query — is rethrown as `Failed to fetch dapps: ...`; the listing does
not degrade to `[]`. -/
def getAllDappsMain (contractDapps : List DappRegistered) (includeRatings : Bool)
    (o : IndexOutcome (Option (List RatingRow))) :
    Except String (List TransformedDapp) :=
  let transformedDapps : List TransformedDapp := contractDapps.map fun dapp =>
    { dappId := dapp.dappId, name := dapp.name, description := dapp.description,
      url := dapp.url, imageUrl := dapp.imageUrl, categoryId := dapp.categoryId,
      category := getCategoryNameById dapp.categoryId, owner := dapp.owner,
      averageRating := none, totalReviews := none }
  if includeRatings = false then .ok transformedDapps
  else
    match fetchGraphQLRun o with
    | .ok data =>
      let reviews := data.getD []
      .ok (transformedDapps.map fun dapp =>
        let dappReviews := reviews.filter fun r => r.dappId == dapp.dappId
        let totalReviews := dappReviews.length
        let averageRating :=
          if totalReviews > 0 then
            (dappReviews.foldl (fun sum r => sum + r.starRating) 0) / (totalReviews : ℚ)
          else 0
        { dapp with averageRating := some averageRating,
                    totalReviews := some totalReviews })
    | .error e => .error ("Failed to fetch dapps: " ++ e)

/-! ## The legacy SDK variant (`src/unnamed/part_003`)

Its `fetchGraphQL` catches every failure and returns `null`, and its bulk
read paths return `[]` on any failure: a `null` response short-circuits the
optional chain `response?.data.x || []` to `[]`, and an error-payload
response (whose `data` is null) makes the property access throw, which the
enclosing catch turns into `return []`. -/

/-- A rating row of the legacy variant
(`DappRating`, `src/unnamed/part_002`). -/
structure P3Rating where
  id : String
  attestationId : String
  dappId : String
  starRating : ℚ
  reviewText : String
deriving DecidableEq

/-- A registration row of the legacy variant
(`DappRegistered`, `src/unnamed/part_002`). -/
structure P3Dapp where
  dappId : String
  description : String
  name : String
  url : String
  platform : String
  category : String
deriving DecidableEq

/-- The legacy listing element: the registration row plus the optional
rating aggregate. -/
structure P3DappOut where
  dapp : P3Dapp
  averageRating : Option ℚ
  totalReviews : Option Nat
deriving DecidableEq

/-- `getAllReviews` of `src/unnamed/part_003` (413-426): every failure
path yields `[]`. -/
def getAllReviewsP3 (o : IndexOutcome (Option (List P3Rating))) : List P3Rating :=
  match o with
  | .success data => data.getD []
  | _ => []

/-- `getAllDapps` of `src/unnamed/part_003` (336-372): `oDapps` is the
outcome of the `dappRegistereds` query, `oReviews` the outcome of the
`dappRatingSubmitteds` query issued through `getAllReviews`; every failure
path yields `[]`. -/
def getAllDappsP3 (oDapps : IndexOutcome (Option (List P3Dapp)))
    (includeRatings : Bool) (oReviews : IndexOutcome (Option (List P3Rating))) :
    List P3DappOut :=
  match oDapps with
  | .success data =>
    let dapps := data.getD []
    if includeRatings = false then
      dapps.map fun dapp => { dapp := dapp, averageRating := none, totalReviews := none }
    else
      let allRatings := getAllReviewsP3 oReviews
      dapps.map fun dapp =>
        let dappRatings := allRatings.filter fun r => r.dappId == dapp.dappId
        let totalReviews := dappRatings.length
        let averageRating :=
          if totalReviews > 0 then
            (dappRatings.foldl (fun sum r => sum + r.starRating) 0) / (totalReviews : ℚ)
          else 0
        { dapp := dapp, averageRating := some averageRating,
          totalReviews := some totalReviews }
  | _ => []

/-! ## `getUserReviews` and address handling (`src/src/index.ts` 325-355)

`ethers.isAddress` is external library code; it is modelled after ethers
v6 `getAddress`: a `0x`-prefixed 40-hex-digit string, whose EIP-55
checksum is validated only when the string mixes upper- and lower-case hex
letters (an all-lower-case or all-upper-case address is accepted as is). -/

/-- ASCII lower-casing, the behaviour of `String.prototype.toLowerCase`
on the ASCII strings reaching it here. -/
def lowerChar (c : Char) : Char :=
  if 'A' ≤ c ∧ c ≤ 'Z' then Char.ofNat (c.toNat + 32) else c

/-- `s.toLowerCase()` on an ASCII string. -/
def lowerAscii (s : String) : String :=
  String.mk (s.data.map lowerChar)

/-- EIP-55 checksummed casing of 40 hex characters: the digest is
Keccak-256 of the ASCII bytes of the lower-cased hex digits, and hex
letter `i` is upper-cased exactly when nibble `i` of the digest is at
least 8. -/
def checksummedHex (rest : List Char) : List Char :=
  let low := rest.map lowerChar
  let digest := keccak256Bytes (low.map Char.toNat)
  (List.range low.length).map fun i =>
    let c := low.getD i ' '
    let nibble := ((digest.getD (i / 2) 0) >>> (if i % 2 == 0 then 4 else 0)) &&& 0xF
    if ('a' ≤ c ∧ c ≤ 'f') ∧ nibble ≥ 8 then Char.ofNat (c.toNat - 32) else c

/-- `ethers.isAddress`.  The mixed-case test
`/([A-F].*[a-f])|([a-f].*[A-F])/` is applied by ethers to the whole
string; testing the 40 digits after `0x` is equivalent because `x` is not
in `[a-f]`. -/
def isAddress (s : String) : Bool :=
  match s.data with
  | c0 :: c1 :: rest =>
    c0 == '0' && c1 == 'x' && rest.length == 40 && rest.all isHexDigit &&
      (!((rest.any fun c => 'A' ≤ c && c ≤ 'F') &&
         (rest.any fun c => 'a' ≤ c && c ≤ 'f')) ||
       rest == checksummedHex rest)
  | _ => false

/-- The constant query text of `getUserReviews`
(`src/src/index.ts` 330-341), whitespace collapsed. -/
def getUserReviewsQuery : String :=
  "query GetUserReviews($rater: String!) \x7b dappRatingSubmitteds(where: \x7b rater: $rater \x7d) \x7b id rater attestationId dappId starRating reviewText \x7d \x7d"

/-- A structured index request: the query text and the `rater` variable. -/
structure GraphQLRequest where
  query : String
  raterVariable : String
deriving DecidableEq

/-- `getUserReviews` (`src/src/index.ts` 325-355): reject on
`!ethers.isAddress(userAddress)`, then issue the fixed query with
`variables: { rater: userAddress.toLowerCase() }` and wrap any index
failure.  The index is an oracle from the issued request to its outcome,
so equal requests received equal responses. -/
def getUserReviewsRun
    (index : GraphQLRequest → IndexOutcome (Option (List DappReview)))
    (userAddress : String) : Except String (List DappReview) :=
  if isAddress userAddress = false then .error "Invalid user address"
  else
    match fetchGraphQLRun (index ⟨getUserReviewsQuery, lowerAscii userAddress⟩) with
    | .ok data => .ok (data.getD [])
    | .error e => .error ("Failed to fetch user reviews: " ++ e)

/-! ## Public operations behind the readiness signal

Every async public method begins with `await this.ensureInitialized()`,
outside its own `try`, so a rejected initialization propagates as is.
These compositions model the operations of an SDK instance whose provider
reported `chainId`. -/

def submitReviewPublic (chainId : Nat) (chain : ChainState) (dappId : String)
    (starRating : ℚ) (reviewText : String) (overrideValue : Option Nat) :
    Except String (List ChainCall) :=
  (initializeRun chainId).bind fun _ =>
    submitReviewRun chain dappId starRating reviewText overrideValue

def registerDappPublic (chainId : Nat) (chain : ChainState)
    (name description url imageURL : String) (categoryId : Nat)
    (overrideValue : Option Nat) : Except String (List ChainCall) :=
  (initializeRun chainId).bind fun _ =>
    registerDappRun chain name description url imageURL categoryId overrideValue

def updateDappPublic (chainId : Nat) (dappId name description url imageURL : String)
    (categoryId : Nat) : Except String (List ChainCall) :=
  (initializeRun chainId).bind fun _ =>
    updateDappRun dappId name description url imageURL categoryId

def getAllReviewsPublic (chainId : Nat)
    (o : IndexOutcome (Option (List DappReview))) :
    Except String (List DappReview) :=
  (initializeRun chainId).bind fun _ => getAllReviewsMain o

def getAllDappsPublic (chainId : Nat) (contractDapps : List DappRegistered)
    (includeRatings : Bool) (o : IndexOutcome (Option (List RatingRow))) :
    Except String (List TransformedDapp) :=
  (initializeRun chainId).bind fun _ => getAllDappsMain contractDapps includeRatings o

def getProjectStatsPublic (chainId : Nat) (projectId : String)
    (o : IndexOutcome (Option (List DappReview))) : Except String ProjectStats :=
  (initializeRun chainId).bind fun _ => getProjectStatsRun projectId o

def getUserReviewsPublic (chainId : Nat)
    (index : GraphQLRequest → IndexOutcome (Option (List DappReview)))
    (userAddress : String) : Except String (List DappReview) :=
  (initializeRun chainId).bind fun _ => getUserReviewsRun index userAddress

/-! ## Supporting lemmas -/

lemma isHexDigit_hexDigitChar {n : Nat} (h : n < 16) :
    isHexDigit (hexDigitChar n) = true := by
  have hall : ∀ m < 16, isHexDigit (hexDigitChar m) = true := by decide
  exact hall n h

lemma flatMap_byteToHexPair_length (bs : List Nat) :
    (bs.flatMap byteToHexPair).length = 2 * bs.length := by
  induction bs with
  | nil => rfl
  | cons b bs ih =>
    simp only [List.flatMap_cons, List.length_append, ih, byteToHexPair,
      List.length_cons, List.length_nil, List.length_cons]
    omega

lemma flatMap_byteToHexPair_all_hex (bs : List Nat) (h : ∀ b ∈ bs, b < 256) :
    (bs.flatMap byteToHexPair).all isHexDigit = true := by
  induction bs with
  | nil => rfl
  | cons b bs ih =>
    have hb : b < 256 := h b (List.mem_cons_self b bs)
    have h1 := isHexDigit_hexDigitChar (show b / 16 < 16 by omega)
    have h2 := isHexDigit_hexDigitChar (show b % 16 < 16 by omega)
    have hrest := ih fun x hx => h x (List.mem_cons_of_mem b hx)
    simp [List.flatMap_cons, List.all_append, byteToHexPair, h1, h2, hrest]

lemma keccak256Bytes_length (msg : List Nat) : (keccak256Bytes msg).length = 32 := by
  simp [keccak256Bytes]

lemma keccak256Bytes_lt_256 (msg : List Nat) : ∀ b ∈ keccak256Bytes msg, b < 256 := by
  intro b hb
  simp only [keccak256Bytes, List.mem_map, List.mem_range] at hb
  obtain ⟨i, _, rfl⟩ := hb
  exact Nat.mod_lt _ (by norm_num)

lemma isHexString_mk (l : List Char) :
    isHexString (String.mk ('0' :: 'x' :: l)) = l.all isHexDigit := by
  simp [isHexString]

lemma length_mk_0x (l : List Char) :
    (String.mk ('0' :: 'x' :: l)).length = 2 + l.length := by
  show ('0' :: 'x' :: l).length = 2 + l.length
  simp [List.length_cons]
  omega

/-- Any freshly hashed identifier is itself in canonical form: `0x`, 64
hex digits, 66 characters. -/
lemma isCanonicalId_keccak256Hex (s : String) :
    isCanonicalId (keccak256Hex s) = true := by
  have hbytes := keccak256Bytes_lt_256 (utf8Bytes s)
  have hlen := keccak256Bytes_length (utf8Bytes s)
  rw [isCanonicalId, keccak256Hex, bytesToHex, isHexString_mk, length_mk_0x,
    flatMap_byteToHexPair_length, hlen,
    flatMap_byteToHexPair_all_hex _ hbytes]
  rfl

/-- C6: identifier canonicalization is pure and deterministic (it is a
function of the input string alone), passes an already-canonical
`0x`-prefixed 66-character valid-hex input through unchanged with its
hex-digit case preserved, hashes any other input (Keccak-256 of its UTF-8
bytes, `0x`-hex encoded), and is idempotent: canonicalizing the canonical
form again returns it unchanged. -/
theorem canonicalize_idempotent (x : String) :
    (isCanonicalId x = true → toBytes32 x = x) ∧
    (isCanonicalId x = false → toBytes32 x = keccak256Hex x) ∧
    toBytes32 (toBytes32 x) = toBytes32 x := by
  refine ⟨fun h => by simp [toBytes32, h], fun h => by simp [toBytes32, h], ?_⟩
  by_cases h : isCanonicalId x = true
  · simp [toBytes32, h]
  · have h2 : isCanonicalId x = false := by
      cases hx : isCanonicalId x
      · rfl
      · exact absurd hx h
    simp [toBytes32, h2, isCanonicalId_keccak256Hex x]

/-- Witness for C6 at concrete inputs: an already-canonical key is passed
through, a human-readable id is hashed, and re-canonicalizing is a no-op. -/
theorem canonicalize_idempotent_witness :
    isCanonicalId "0xAb00000000000000000000000000000000000000000000000000000000000000" = true ∧
    toBytes32 "0xAb00000000000000000000000000000000000000000000000000000000000000" =
      "0xAb00000000000000000000000000000000000000000000000000000000000000" ∧
    isCanonicalId "my-dapp" = false ∧
    toBytes32 "my-dapp" = keccak256Hex "my-dapp" ∧
    toBytes32 (toBytes32 "my-dapp") = toBytes32 "my-dapp" :=
  ⟨by decide,
   (canonicalize_idempotent _).1 (by decide),
   by decide,
   (canonicalize_idempotent "my-dapp").2.1 (by decide),
   (canonicalize_idempotent "my-dapp").2.2⟩

lemma foldl_add_starRating (l : List DappReview) (a : ℚ) :
    l.foldl (fun acc r => acc + r.starRating) a = a + (l.map fun r => r.starRating).sum := by
  induction l generalizing a with
  | nil => simp
  | cons r l ih => simp [ih, add_assoc]

lemma filter_star_count (l : List DappReview) (q : ℚ) :
    (l.filter fun r => r.starRating == q).length = (l.map fun r => r.starRating).count q := by
  rw [List.count_eq_countP, List.countP_map, List.countP_eq_length_filter]
  rfl

/-- C2: `getProjectStats` returns the review count, the arithmetic mean of
the star values (`0` for the empty list, with no division error — the
division is total here and the empty case is returned early), and the
occurrence count of each star value `1`-`5` (all zero for the empty
list).  Instantiating `reviews` with star values `[5, 5, 4]` gives count
`3`, mean `14/3` and distribution `5 ↦ 2, 4 ↦ 1, 3, 2, 1 ↦ 0`. -/
theorem getProjectStats_spec (reviews : List DappReview) :
    (getProjectStats reviews).totalReviews = reviews.length ∧
    (getProjectStats reviews).averageRating =
      (if reviews.length = 0 then 0
       else (reviews.map fun r => r.starRating).sum / (reviews.length : ℚ)) ∧
    (getProjectStats reviews).dist1 = (reviews.map fun r => r.starRating).count 1 ∧
    (getProjectStats reviews).dist2 = (reviews.map fun r => r.starRating).count 2 ∧
    (getProjectStats reviews).dist3 = (reviews.map fun r => r.starRating).count 3 ∧
    (getProjectStats reviews).dist4 = (reviews.map fun r => r.starRating).count 4 ∧
    (getProjectStats reviews).dist5 = (reviews.map fun r => r.starRating).count 5 := by
  by_cases h : reviews.length = 0
  · have hnil : reviews = [] := List.length_eq_zero.mp h
    subst hnil
    simp [getProjectStats]
  · have havg : ∀ q : ℚ, (if q == 0 then 0 else q) = q := by
      intro q
      by_cases hq : q = 0 <;> simp [hq]
    simp only [getProjectStats, if_neg h, havg, filter_star_count,
      foldl_add_starRating, zero_add]
    simp

/-- C3: for a star rating strictly below 1 or strictly above 5, and for an
empty `dappId`, `submitReview` raises a validation error, and the result
does not depend on the chain state at all — the connection receives zero
calls from the invocation (no signer lookup, no fee view call, no
transaction). -/
theorem submitReview_validates_before_network
    (chain chain2 : ChainState) (dappId : String) (starRating : ℚ)
    (reviewText : String) (ov : Option Nat)
    (h : starRating < 1 ∨ starRating > 5 ∨ dappId = "") :
    (∃ msg, submitReviewRun chain dappId starRating reviewText ov = .error msg) ∧
    submitReviewRun chain dappId starRating reviewText ov =
      submitReviewRun chain2 dappId starRating reviewText ov := by
  by_cases hd : dappId = ""
  · simp [submitReviewRun, hd]
  · have hs : starRating < 1 ∨ starRating > 5 := by
      rcases h with h | h | h
      · exact Or.inl h
      · exact Or.inr h
      · exact absurd h hd
    constructor
    · exact ⟨"Star rating must be between 1 and 5",
        by simp only [submitReviewRun, if_neg hd, if_pos hs]⟩
    · simp only [submitReviewRun, if_neg hd, if_pos hs]

/-- Witness for C3: ratings `0` and `6` and the empty identifier are each
rejected, with a result independent of two different chain states. -/
theorem submitReview_validates_witness :
    (∃ msg, submitReviewRun ⟨7, 9⟩ "my-dapp" 0 "nice" none = .error msg) ∧
    (∃ msg, submitReviewRun ⟨7, 9⟩ "my-dapp" 6 "nice" none = .error msg) ∧
    (∃ msg, submitReviewRun ⟨7, 9⟩ "" 3 "nice" none = .error msg) ∧
    submitReviewRun ⟨7, 9⟩ "my-dapp" 0 "nice" none =
      submitReviewRun ⟨100, 3⟩ "my-dapp" 0 "nice" none :=
  ⟨(submitReview_validates_before_network ⟨7, 9⟩ ⟨100, 3⟩ "my-dapp" 0 "nice" none
      (Or.inl (by norm_num))).1,
   (submitReview_validates_before_network ⟨7, 9⟩ ⟨100, 3⟩ "my-dapp" 6 "nice" none
      (Or.inr (Or.inl (by norm_num)))).1,
   (submitReview_validates_before_network ⟨7, 9⟩ ⟨100, 3⟩ "" 3 "nice" none
      (Or.inr (Or.inr rfl))).1,
   (submitReview_validates_before_network ⟨7, 9⟩ ⟨100, 3⟩ "my-dapp" 0 "nice" none
      (Or.inl (by norm_num))).2⟩

/-- Counterexample to C4 as stated: in the current SDK (`src/src/index.ts`)
a failing index endpoint makes `getAllReviews` and `getAllDapps` rethrow a
wrapped error — they do not return an empty collection. -/
theorem getAllReviews_propagates_index_failure :
    getAllReviewsMain (.transportFail "fetch failed") =
      .error "Failed to fetch reviews: Failed to fetch GraphQL data: fetch failed" ∧
    getAllDappsMain [] true (.httpError 500) =
      .error "Failed to fetch dapps: Failed to fetch GraphQL data: HTTP error! status: 500" :=
  ⟨rfl, rfl⟩

/-- C4 amended: only the legacy variant (`src/unnamed/part_003`) degrades
its bulk reads to an empty collection on index failure; the bulk reads of
the current SDK (`src/src/index.ts`) propagate a wrapped error instead. -/
theorem bulk_read_failure_policy
    (o1 : IndexOutcome (Option (List DappReview)))
    (o2 : IndexOutcome (Option (List RatingRow)))
    (o3 : IndexOutcome (Option (List P3Rating)))
    (o4 : IndexOutcome (Option (List P3Dapp)))
    (o5 : IndexOutcome (Option (List P3Rating)))
    (dapps : List DappRegistered) (inc : Bool)
    (h1 : o1.isFailure = true) (h2 : o2.isFailure = true)
    (h3 : o3.isFailure = true) (h4 : o4.isFailure = true) :
    (∃ e, getAllReviewsMain o1 = .error e) ∧
    (∃ e, getAllDappsMain dapps true o2 = .error e) ∧
    getAllReviewsP3 o3 = [] ∧
    getAllDappsP3 o4 inc o5 = [] := by
  refine ⟨?_, ?_, ?_, ?_⟩
  · cases o1 <;> simp_all [getAllReviewsMain, fetchGraphQLRun, IndexOutcome.isFailure]
  · cases o2 <;> simp_all [getAllDappsMain, fetchGraphQLRun, IndexOutcome.isFailure]
  · cases o3 <;> simp_all [getAllReviewsP3, IndexOutcome.isFailure]
  · cases o4 <;> simp_all [getAllDappsP3, IndexOutcome.isFailure]

/-- Witness for C4 (amended) at concrete failing outcomes. -/
theorem bulk_read_failure_policy_witness :
    (∃ e, getAllReviewsMain (.graphqlErrors ["boom"]) = .error e) ∧
    (∃ e, getAllDappsMain [] true (.transportFail "down") = .error e) ∧
    getAllReviewsP3 (.httpError 502) = [] ∧
    getAllDappsP3 (.transportFail "down") true (.success (some [])) = [] :=
  bulk_read_failure_policy (.graphqlErrors ["boom"]) (.transportFail "down")
    (.httpError 502) (.transportFail "down") (.success (some [])) [] true
    rfl rfl rfl rfl

/-- Counterexample to C5 as stated: after binding against a connection
reporting chain id `1` (absent from `CHAIN_CONFIGS`), the public operation
`getCurrentChain` does not await the readiness signal: it returns the
unset binding (`undefined`, i.e. `none`) instead of raising the
configuration error — so not every public operation propagates the
`Failed` state as an immediate error. -/
theorem getCurrentChain_returns_unset_binding :
    CHAIN_CONFIGS 1 = none ∧ getCurrentChainRun 1 = none :=
  ⟨rfl, rfl⟩

/-- C5 amended: chain id `1` has no entry in `CHAIN_CONFIGS`, so
initialization fails with an error naming that chain id, and every public
operation that awaits the readiness signal (`submitReview`,
`registerDapp`, `updateDapp`, `getAllReviews`, `getAllDapps`,
`getProjectStats`, `getUserReviews`) raises exactly that configuration
error instead of attempting partial operation; the synchronous accessor
`getCurrentChain`, however, skips the readiness signal and returns the
unset binding. -/
theorem unsupported_chain_fails_closed :
    CHAIN_CONFIGS 1 = none ∧
    initializeRun 1 = .error "Configuration not found for chain: 1" ∧
    (∀ chain dappId star text ov,
      submitReviewPublic 1 chain dappId star text ov =
        .error "Configuration not found for chain: 1") ∧
    (∀ chain n d u i c ov,
      registerDappPublic 1 chain n d u i c ov =
        .error "Configuration not found for chain: 1") ∧
    (∀ dappId n d u i c,
      updateDappPublic 1 dappId n d u i c =
        .error "Configuration not found for chain: 1") ∧
    (∀ o, getAllReviewsPublic 1 o = .error "Configuration not found for chain: 1") ∧
    (∀ dapps inc o,
      getAllDappsPublic 1 dapps inc o =
        .error "Configuration not found for chain: 1") ∧
    (∀ pid o,
      getProjectStatsPublic 1 pid o =
        .error "Configuration not found for chain: 1") ∧
    (∀ idx a,
      getUserReviewsPublic 1 idx a =
        .error "Configuration not found for chain: 1") :=
  ⟨rfl, rfl, fun _ _ _ _ _ => rfl, fun _ _ _ _ _ _ _ => rfl, fun _ _ _ _ _ _ => rfl,
   fun _ => rfl, fun _ _ _ => rfl, fun _ _ => rfl, fun _ _ => rfl⟩

set_option maxRecDepth 1000000 in
lemma keccak256Hex_myDapp :
    keccak256Hex "my-dapp" =
      "0xaba109946f80acd54e036df6bb1b5fe224dde9168f8096fbe9a0ceaaceac56a4" := by
  decide

set_option maxRecDepth 1000000 in
lemma keccak256Hex_exampleUrl :
    keccak256Hex "https://example.com" =
      "0xedba3f8cfcd4165f73cd4641ced2b2ec0d3ba4338e3eec30edd58777d86b53b2" := by
  decide

/-- C1 (the failing call path, evaluated): in the legacy variant
`src/unnamed/part_003`, `updateDapp` hashes the `url` argument instead of
its `dappId` parameter, so for `dappId = "my-dapp"`,
`url = "https://example.com"` the contract receives
`keccak256(utf8("https://example.com"))`, which differs from the
canonicalization `keccak256(utf8("my-dapp"))` of the identifier parameter
that every other call path (and the claim) uses. -/
theorem updateDappP3_hashes_url_not_dappId :
    updateDappIdArgP3 "my-dapp" "https://example.com" =
      "0xedba3f8cfcd4165f73cd4641ced2b2ec0d3ba4338e3eec30edd58777d86b53b2" ∧
    toBytes32 "my-dapp" =
      "0xaba109946f80acd54e036df6bb1b5fe224dde9168f8096fbe9a0ceaaceac56a4" ∧
    updateDappIdArgP3 "my-dapp" "https://example.com" ≠ toBytes32 "my-dapp" := by
  have hc : isCanonicalId "my-dapp" = false := by decide
  have h1 : updateDappIdArgP3 "my-dapp" "https://example.com" =
      keccak256Hex "https://example.com" := by
    simp [updateDappIdArgP3, hc]
  have h2 : toBytes32 "my-dapp" = keccak256Hex "my-dapp" := by
    simp [toBytes32, hc]
  refine ⟨h1.trans keccak256Hex_exampleUrl, h2.trans keccak256Hex_myDapp, ?_⟩
  rw [h1, h2, keccak256Hex_exampleUrl, keccak256Hex_myDapp]
  decide

/-- Counterexample to C7 as stated: the value of the mutating call is
`{ value: ratingFee, ...overrides }`, so a caller-supplied
`overrides.value` (spread after `value`) replaces the freshly read fee:
with the on-chain rating fee at `5` and an override value of `0`, the
transaction carries `0`, not the fee that the view call just returned. -/
theorem submitReview_override_beats_fee :
    submitReviewRun ⟨5, 7⟩
      "0x0000000000000000000000000000000000000000000000000000000000000000"
      5 "good" (some 0) =
      .ok [ChainCall.getAddress, ChainCall.viewDappRatingFee,
           ChainCall.txAddDappRating
             "0x0000000000000000000000000000000000000000000000000000000000000000"
             5 "good" 0] ∧
    (⟨5, 7⟩ : ChainState).dappRatingFee = 5 ∧ (5 : Nat) ≠ 0 := by
  refine ⟨?_, rfl, by decide⟩
  rfl

/-- C7 amended: every successful `submitReview` (and `registerDapp`)
performs the fee view call (`dappRatingFee()` / `dappRegistrationFee()`)
inside that same invocation, and the value attached to the mutating call
is exactly the fee that view call returned — for any current chain state,
hence never a cached value — unless the caller passes an explicit `value`
in `overrides`, which takes precedence; and each operation either returns
a transaction trace or raises an error, never neither. -/
theorem fee_read_fresh_and_attached :
    (∀ (chain : ChainState) (dappId : String) (star : ℚ) (text : String),
      dappId ≠ "" → ¬(star < 1 ∨ star > 5) →
      submitReviewRun chain dappId star text none =
        .ok [ChainCall.getAddress, ChainCall.viewDappRatingFee,
             ChainCall.txAddDappRating (toBytes32 dappId) star text
               chain.dappRatingFee]) ∧
    (∀ (chain : ChainState) (n d u i : String) (c : Nat),
      ¬(n = "" ∨ n.length > 100) → ¬(d.length > 1000) →
      ¬(u = "" ∨ testHttpUrl u = false) → ¬(i = "" ∨ testHttpUrl i = false) →
      ¬(categoryIdKnown c = false) →
      registerDappRun chain n d u i c none =
        .ok [ChainCall.getAddress, ChainCall.viewDappRegistrationFee,
             ChainCall.txRegisterDapp n d u i c chain.dappRegistrationFee]) ∧
    (∀ chain dappId star text ov,
      (∃ t, submitReviewRun chain dappId star text ov = .ok t) ∨
      (∃ e, submitReviewRun chain dappId star text ov = .error e)) ∧
    (∀ chain n d u i c ov,
      (∃ t, registerDappRun chain n d u i c ov = .ok t) ∨
      (∃ e, registerDappRun chain n d u i c ov = .error e)) := by
  refine ⟨?_, ?_, ?_, ?_⟩
  · intro chain dappId star text hd hs
    simp only [submitReviewRun, if_neg hd, if_neg hs, Option.getD]
  · intro chain n d u i c h1 h2 h3 h4 h5
    simp only [registerDappRun, if_neg h1, if_neg h2, if_neg h3, if_neg h4,
      if_neg h5, Option.getD]
  · intro chain dappId star text ov
    cases h : submitReviewRun chain dappId star text ov with
    | ok t => exact Or.inl ⟨t, rfl⟩
    | error e => exact Or.inr ⟨e, rfl⟩
  · intro chain n d u i c ov
    cases h : registerDappRun chain n d u i c ov with
    | ok t => exact Or.inl ⟨t, rfl⟩
    | error e => exact Or.inr ⟨e, rfl⟩

/-- Witness for C7 (amended): concrete valid submissions against chains
with fees `3` and `11` — the attached value equals the fee the view call
returned in that same invocation. -/
theorem fee_read_fresh_and_attached_witness :
    ("0x0000000000000000000000000000000000000000000000000000000000000000" ≠ "") ∧
    ¬((5 : ℚ) < 1 ∨ (5 : ℚ) > 5) ∧
    submitReviewRun ⟨3, 4⟩
      "0x0000000000000000000000000000000000000000000000000000000000000000"
      5 "good" none =
      .ok [ChainCall.getAddress, ChainCall.viewDappRatingFee,
           ChainCall.txAddDappRating
             (toBytes32 "0x0000000000000000000000000000000000000000000000000000000000000000")
             5 "good" 3] ∧
    registerDappRun ⟨3, 11⟩ "MyDapp" "A dapp" "https://a.example"
      "https://b.example/i.png" 412 none =
      .ok [ChainCall.getAddress, ChainCall.viewDappRegistrationFee,
           ChainCall.txRegisterDapp "MyDapp" "A dapp" "https://a.example"
             "https://b.example/i.png" 412 11] :=
  ⟨by decide, by norm_num,
   fee_read_fresh_and_attached.1 ⟨3, 4⟩ _ 5 "good" (by decide) (by norm_num),
   fee_read_fresh_and_attached.2.1 ⟨3, 11⟩ "MyDapp" "A dapp" "https://a.example"
     "https://b.example/i.png" 412 (by decide) (by decide) (by decide) (by decide)
     (by decide)⟩

lemma registerDappRun_ok_iff (chain : ChainState) (n d u i : String) (c : Nat)
    (ov : Option Nat) :
    exceptIsOk (registerDappRun chain n d u i c ov) = true ↔
      (¬(n = "" ∨ n.length > 100) ∧ ¬(d.length > 1000) ∧
       ¬(u = "" ∨ testHttpUrl u = false) ∧ ¬(i = "" ∨ testHttpUrl i = false) ∧
       ¬(categoryIdKnown c = false)) := by
  unfold registerDappRun
  split_ifs with h1 h2 h3 h4 h5 <;> simp_all [exceptIsOk]

lemma updateDappRun_ok_iff (dappId n d u i : String) (c : Nat) :
    exceptIsOk (updateDappRun dappId n d u i c) = true ↔
      (¬(dappId = "") ∧ ¬(n = "" ∨ n.length > 100) ∧
       ¬(d = "" ∨ d.length > 1000) ∧
       ¬(u = "" ∨ testHttpUrl u = false) ∧ ¬(i = "" ∨ testHttpUrl i = false) ∧
       ¬(categoryIdKnown c = false)) := by
  unfold updateDappRun
  split_ifs with h0 h1 h2 h3 h4 h5 <;> simp_all [exceptIsOk]

/-- Counterexample to C8 as stated: the field validations differ on the
empty description — `registerDapp` only checks
`description.length > 1000`, while `updateDapp` checks
`!description || description.length > 1000` — so the tuple
`("MyDapp", "", "https://a.example", "https://b.example", 412)` is
accepted by `registerDapp` but rejected by `updateDapp`. -/
theorem register_accepts_empty_description_update_rejects :
    exceptIsOk (registerDappRun ⟨0, 0⟩ "MyDapp" "" "https://a.example"
      "https://b.example" 412 none) = true ∧
    exceptIsOk (updateDappRun "my-dapp" "MyDapp" "" "https://a.example"
      "https://b.example" 412) = false := by
  constructor <;> rfl

/-- C8 amended: for a non-empty `dappId`, `updateDapp` accepts a field
tuple exactly when `registerDapp` accepts it AND the description is
non-empty; apart from the extra non-emptiness requirement on the
description, the two validations coincide. -/
theorem update_register_validation (chain : ChainState)
    (dappId n d u i : String) (c : Nat) (hid : dappId ≠ "") :
    exceptIsOk (updateDappRun dappId n d u i c) = true ↔
      (exceptIsOk (registerDappRun chain n d u i c none) = true ∧ d ≠ "") := by
  rw [registerDappRun_ok_iff, updateDappRun_ok_iff]
  constructor
  · rintro ⟨-, hn, hd, hu, hi, hc⟩
    exact ⟨⟨hn, fun hl => hd (Or.inr hl), hu, hi, hc⟩, fun he => hd (Or.inl he)⟩
  · rintro ⟨⟨hn, hd, hu, hi, hc⟩, hne⟩
    refine ⟨hid, hn, ?_, hu, hi, hc⟩
    rintro (he | hl)
    · exact hne he
    · exact hd hl

/-- Witness for C8 (amended): a tuple accepted by both operations. -/
theorem update_register_validation_witness :
    exceptIsOk (updateDappRun
      "0x0000000000000000000000000000000000000000000000000000000000000000"
      "MyDapp" "A dapp" "https://a.example" "https://b.example" 412) = true ∧
    (exceptIsOk (updateDappRun
        "0x0000000000000000000000000000000000000000000000000000000000000000"
        "MyDapp" "A dapp" "https://a.example" "https://b.example" 412) = true ↔
      (exceptIsOk (registerDappRun ⟨0, 0⟩ "MyDapp" "A dapp" "https://a.example"
        "https://b.example" 412 none) = true ∧ "A dapp" ≠ "")) :=
  ⟨by rfl,
   update_register_validation ⟨0, 0⟩ _ "MyDapp" "A dapp" "https://a.example"
     "https://b.example" 412 (by decide)⟩

/-- C9: category resolution is a total pure lookup — it never raises.
Resolving id `412` yields name `DEX` in group `DeFi` (the SDK formats the
pair as `"DEX (DeFi)"`); an id absent from the table (`999999`) yields the
`"Unknown (<id>)"` sentinel rather than an error; and for every id in the
table, the group attached is the table entry at the id rounded down to the
nearest hundred (`Math.floor(id / 100) * 100`). -/
theorem resolveCategory_spec :
    getCategoryNameById 412 = "DEX (DeFi)" ∧
    getCategoryNameById 999999 = "Unknown (999999)" ∧
    (CATEGORY_NAMES.all fun p =>
      match lookupCategory (p.1 / 100 * 100) with
      | some g => categoryGroup p.1 == g
      | none => false) = true := by
  refine ⟨by rfl, by rfl, by rfl⟩

/-- C10: `getUserReviews` lower-cases the rater address before building the
index query (`variables: { rater: userAddress.toLowerCase() }`), so for any
two valid addresses equal up to letter case it sends the identical request
(same constant query text, same `rater` variable) to the index oracle and
returns the same result. -/
theorem getUserReviews_case_insensitive
    (index : GraphQLRequest → IndexOutcome (Option (List DappReview)))
    (a b : String) (ha : isAddress a = true) (hb : isAddress b = true)
    (hcase : lowerAscii a = lowerAscii b) :
    getUserReviewsRun index a = getUserReviewsRun index b := by
  simp only [getUserReviewsRun, ha, hb, hcase]

/-- Witness for C10: the all-lower-case and all-upper-case spellings of one
address (both accepted by `ethers.isAddress`, which only checksums
mixed-case inputs) produce the same result against any fixed index. -/
theorem getUserReviews_case_insensitive_witness :
    isAddress "0xaaaaaaaaaaaaaaaaaaaaaaaaaaaaaaaaaaaaaaaa" = true ∧
    isAddress "0xAAAAAAAAAAAAAAAAAAAAAAAAAAAAAAAAAAAAAAAA" = true ∧
    lowerAscii "0xaaaaaaaaaaaaaaaaaaaaaaaaaaaaaaaaaaaaaaaa" =
      lowerAscii "0xAAAAAAAAAAAAAAAAAAAAAAAAAAAAAAAAAAAAAAAA" ∧
    getUserReviewsRun (fun _ => .success (some []))
        "0xaaaaaaaaaaaaaaaaaaaaaaaaaaaaaaaaaaaaaaaa" =
      getUserReviewsRun (fun _ => .success (some []))
        "0xAAAAAAAAAAAAAAAAAAAAAAAAAAAAAAAAAAAAAAAA" :=
  ⟨by decide, by decide, by decide,
   getUserReviews_case_insensitive _ _ _ (by decide) (by decide) (by decide)⟩
